import Mathlib

/-!
Verification of the Latent-FS frontend against its specification.

The development shallowly embeds the TypeScript frontend:

* `Json` models the values produced by `response.json()` / `JSON.parse`.
* The `z*` combinators and the `*Schema` functions embed the Zod schemas of
  `frontend/lib/api-client.ts`; `Option` models parse success or `ZodError`.
* `disposition`, `runReq` and `request` embed `LatentFSClient.request`, the
  retry loop of the client, parameterised by the outcome of each `fetch`
  attempt.
* `handleDrop`, `viewStep`, `fetchData`, `showError`, `gridView` embed the
  corresponding component and hook logic.

Claim-side shape predicates (`spec*Shape`) are written from the words of the
specification and compared with the source-derived schemas.
-/

/-- A JSON value, as produced by `JSON.parse`.  Objects are association lists;
numbers are modelled as rationals. -/
inductive Json where
  | null : Json
  | bool : Bool → Json
  | num : Rat → Json
  | str : String → Json
  | arr : List Json → Json
  | obj : List (String × Json) → Json

/-- Property access `o[k]` on a parsed JSON object: the first binding of the
key, `none` when the key is absent. -/
def getField (kvs : List (String × Json)) (k : String) : Option Json :=
  (kvs.find? (fun kv => kv.1 == k)).map (fun kv => kv.2)

/-! ### Embeddings of the Zod combinators used by api-client.ts -/

/-- `z.string()` -/
def zString : Json → Option String
  | .str s => some s
  | _ => none

/-- `z.number()` -/
def zNumber : Json → Option Rat
  | .num q => some q
  | _ => none

/-- `z.boolean()` -/
def zBool : Json → Option Bool
  | .bool b => some b
  | _ => none

/-- `z.string().nullable()` -/
def zStringNullable : Json → Option (Option String)
  | .null => some none
  | .str s => some (some s)
  | _ => none

/-- `z.record(z.string(), z.any())`: accepts exactly the JSON objects. -/
def zRecordAny : Json → Option (List (String × Json))
  | .obj kvs => some kvs
  | _ => none

/-- Element-wise parsing of an array body: every element must parse. -/
def zTraverse (p : Json → Option α) : List Json → Option (List α)
  | [] => some []
  | x :: xs => do
    let a ← p x
    let as ← zTraverse p xs
    pure (a :: as)

/-- `z.array(p)` -/
def zArray (p : Json → Option α) : Json → Option (List α)
  | .arr xs => zTraverse p xs
  | _ => none

/-- A required field of a `z.object`: the enclosing value must be an object
and the field must be present and parse. Extra keys are ignored, as with
the Zod default stripping behaviour. -/
def zField (v : Json) (k : String) (p : Json → Option α) : Option α :=
  match v with
  | .obj kvs => (getField kvs k).bind p
  | _ => none

/-! ### The data model of frontend/lib/types.ts -/

/-- `Document` of frontend/lib/types.ts. -/
structure Document where
  id : String
  text : String
  embedding : List Rat
  cluster_id : Option String
  metadata : List (String × Json)
  created_at : String
  updated_at : String

/-- `Cluster` of frontend/lib/types.ts. -/
structure Cluster where
  id : String
  name : String
  centroid : List Rat
  document_ids : List String
  representative_doc_id : String

/-- `ClusterData` of frontend/lib/types.ts. -/
structure ClusterData where
  folders : List Cluster
  documents : List Document
  timestamp : String

/-- `IngestResponse` of frontend/lib/types.ts. -/
structure IngestResponse where
  success : Bool
  document_ids : List String
  count : Rat
  message : String

/-- `ReEmbedResponse` of frontend/lib/types.ts. -/
structure ReEmbedResponse where
  success : Bool
  new_cluster_id : String
  updated_clusters : ClusterData

/-! ### The Zod schemas of api-client.ts (lines 22-68) -/

/-- `DocumentSchema` of api-client.ts. -/
def DocumentSchema (v : Json) : Option Document := do
  let id ← zField v "id" zString
  let text ← zField v "text" zString
  let embedding ← zField v "embedding" (zArray zNumber)
  let cluster_id ← zField v "cluster_id" zStringNullable
  let metadata ← zField v "metadata" zRecordAny
  let created_at ← zField v "created_at" zString
  let updated_at ← zField v "updated_at" zString
  pure ⟨id, text, embedding, cluster_id, metadata, created_at, updated_at⟩

/-- `ClusterSchema` of api-client.ts. -/
def ClusterSchema (v : Json) : Option Cluster := do
  let id ← zField v "id" zString
  let name ← zField v "name" zString
  let centroid ← zField v "centroid" (zArray zNumber)
  let document_ids ← zField v "document_ids" (zArray zString)
  let representative_doc_id ← zField v "representative_doc_id" zString
  pure ⟨id, name, centroid, document_ids, representative_doc_id⟩

/-- `ClusterDataSchema` of api-client.ts. -/
def ClusterDataSchema (v : Json) : Option ClusterData := do
  let folders ← zField v "folders" (zArray ClusterSchema)
  let documents ← zField v "documents" (zArray DocumentSchema)
  let timestamp ← zField v "timestamp" zString
  pure ⟨folders, documents, timestamp⟩

/-- `IngestResponseSchema` of api-client.ts: note that it requires
`success` and `message` in addition to `document_ids` and `count`. -/
def IngestResponseSchema (v : Json) : Option IngestResponse := do
  let success ← zField v "success" zBool
  let document_ids ← zField v "document_ids" (zArray zString)
  let count ← zField v "count" zNumber
  let message ← zField v "message" zString
  pure ⟨success, document_ids, count, message⟩

/-- `ClusterResponseSchema` of api-client.ts (textually identical to
`ClusterDataSchema`). -/
def ClusterResponseSchema (v : Json) : Option ClusterData := do
  let folders ← zField v "folders" (zArray ClusterSchema)
  let documents ← zField v "documents" (zArray DocumentSchema)
  let timestamp ← zField v "timestamp" zString
  pure ⟨folders, documents, timestamp⟩

/-- `ReEmbedResponseSchema` of api-client.ts. -/
def ReEmbedResponseSchema (v : Json) : Option ReEmbedResponse := do
  let success ← zField v "success" zBool
  let new_cluster_id ← zField v "new_cluster_id" zString
  let updated_clusters ← zField v "updated_clusters" ClusterResponseSchema
  pure ⟨success, new_cluster_id, updated_clusters⟩

/-! ### Claim-side shape predicates, written from the words of the spec -/

/-- Spec shape: a JSON string. -/
def specIsString : Json → Bool
  | .str _ => true
  | _ => false

/-- Spec shape: a JSON number. -/
def specIsNumber : Json → Bool
  | .num _ => true
  | _ => false

/-- Spec shape: a JSON boolean. -/
def specIsBool : Json → Bool
  | .bool _ => true
  | _ => false

/-- Spec shape: a string or null. -/
def specIsStringOrNull : Json → Bool
  | .str _ => true
  | .null => true
  | _ => false

/-- Spec shape: a string-keyed record (any JSON object). -/
def specIsRecord : Json → Bool
  | .obj _ => true
  | _ => false

/-- Spec shape: an array all of whose elements satisfy `q`. -/
def specIsArrayOf (q : Json → Bool) : Json → Bool
  | .arr xs => xs.all q
  | _ => false

/-- Spec shape: the value is an object whose field `k` is present and
satisfies `q`. -/
def specField (v : Json) (k : String) (q : Json → Bool) : Bool :=
  match v with
  | .obj kvs => ((getField kvs k).map q).getD false
  | _ => false

/-- Modelled from the spec (claim C1): the Document shape
`{id, text, embedding, cluster_id, metadata, created_at, updated_at}`. -/
def specDocumentShape (v : Json) : Bool :=
  specField v "id" specIsString &&
  specField v "text" specIsString &&
  specField v "embedding" (specIsArrayOf specIsNumber) &&
  specField v "cluster_id" specIsStringOrNull &&
  specField v "metadata" specIsRecord &&
  specField v "created_at" specIsString &&
  specField v "updated_at" specIsString

/-- Modelled from the spec (claim C1): the Cluster shape
`{id, name, centroid, document_ids, representative_doc_id}`. -/
def specClusterShape (v : Json) : Bool :=
  specField v "id" specIsString &&
  specField v "name" specIsString &&
  specField v "centroid" (specIsArrayOf specIsNumber) &&
  specField v "document_ids" (specIsArrayOf specIsString) &&
  specField v "representative_doc_id" specIsString

/-- Modelled from the spec (claim C1): the snapshot shape
`{folders: [Cluster], documents: [Document], timestamp: string}`. -/
def specClusterDataShape (v : Json) : Bool :=
  specField v "folders" (specIsArrayOf specClusterShape) &&
  specField v "documents" (specIsArrayOf specDocumentShape) &&
  specField v "timestamp" specIsString

/-- Modelled from the spec (claim C6, as frozen): the ingest result shape
`{document_ids: [string], count: int}` with only those two fields required. -/
def specIngestClaimShape (v : Json) : Bool :=
  specField v "document_ids" (specIsArrayOf specIsString) &&
  specField v "count" specIsNumber

/-- The ingest response shape the code actually checks:
`{success: boolean, document_ids: [string], count: number, message: string}`. -/
def specIngestRespShape (v : Json) : Bool :=
  specField v "success" specIsBool &&
  specField v "document_ids" (specIsArrayOf specIsString) &&
  specField v "count" specIsNumber &&
  specField v "message" specIsString

/-- Modelled from the spec (claim C3): the re-embed response shape
`{success: bool, new_cluster_id: string, updated_clusters: {folders, documents, timestamp}}`. -/
def specReEmbedShape (v : Json) : Bool :=
  specField v "success" specIsBool &&
  specField v "new_cluster_id" specIsString &&
  specField v "updated_clusters" specClusterDataShape

/-! ### Bridging lemmas: schema acceptance equals the spec shape -/

theorem zString_isSome (j : Json) : (zString j).isSome = specIsString j := by
  cases j <;> rfl

theorem zNumber_isSome (j : Json) : (zNumber j).isSome = specIsNumber j := by
  cases j <;> rfl

theorem zBool_isSome (j : Json) : (zBool j).isSome = specIsBool j := by
  cases j <;> rfl

theorem zStringNullable_isSome (j : Json) :
    (zStringNullable j).isSome = specIsStringOrNull j := by
  cases j <;> rfl

theorem zRecordAny_isSome (j : Json) :
    (zRecordAny j).isSome = specIsRecord j := by
  cases j <;> rfl

theorem zTraverse_isSome (p : Json → Option α) (q : Json → Bool)
    (h : ∀ j, (p j).isSome = q j) (xs : List Json) :
    (zTraverse p xs).isSome = xs.all q := by
  induction xs with
  | nil => rfl
  | cons x xs ih =>
    simp only [zTraverse, List.all_cons, ← h x, ← ih]
    cases p x with
    | none => rfl
    | some a =>
      cases zTraverse p xs with
      | none => rfl
      | some as => rfl

theorem zArray_isSome (p : Json → Option α) (q : Json → Bool)
    (h : ∀ j, (p j).isSome = q j) (j : Json) :
    (zArray p j).isSome = specIsArrayOf q j := by
  cases j <;> simp [zArray, specIsArrayOf, zTraverse_isSome p q h]

theorem zField_isSome (v : Json) (k : String) (p : Json → Option α)
    (q : Json → Bool) (h : ∀ j, (p j).isSome = q j) :
    (zField v k p).isSome = specField v k q := by
  cases v with
  | obj kvs =>
    simp only [zField, specField]
    cases getField kvs k with
    | none => rfl
    | some j => simp [h j]
  | _ => rfl

theorem DocumentSchema_isSome (v : Json) :
    (DocumentSchema v).isSome = specDocumentShape v := by
  simp only [specDocumentShape,
    ← zField_isSome v "id" zString specIsString zString_isSome,
    ← zField_isSome v "text" zString specIsString zString_isSome,
    ← zField_isSome v "embedding" (zArray zNumber) (specIsArrayOf specIsNumber)
        (zArray_isSome zNumber specIsNumber zNumber_isSome),
    ← zField_isSome v "cluster_id" zStringNullable specIsStringOrNull
        zStringNullable_isSome,
    ← zField_isSome v "metadata" zRecordAny specIsRecord zRecordAny_isSome,
    ← zField_isSome v "created_at" zString specIsString zString_isSome,
    ← zField_isSome v "updated_at" zString specIsString zString_isSome]
  simp only [DocumentSchema]
  cases zField v "id" zString <;> simp
  cases zField v "text" zString <;> simp
  cases zField v "embedding" (zArray zNumber) <;> simp
  cases zField v "cluster_id" zStringNullable <;> simp
  cases zField v "metadata" zRecordAny <;> simp
  cases zField v "created_at" zString <;> simp
  cases zField v "updated_at" zString <;> simp

theorem ClusterSchema_isSome (v : Json) :
    (ClusterSchema v).isSome = specClusterShape v := by
  simp only [specClusterShape,
    ← zField_isSome v "id" zString specIsString zString_isSome,
    ← zField_isSome v "name" zString specIsString zString_isSome,
    ← zField_isSome v "centroid" (zArray zNumber) (specIsArrayOf specIsNumber)
        (zArray_isSome zNumber specIsNumber zNumber_isSome),
    ← zField_isSome v "document_ids" (zArray zString)
        (specIsArrayOf specIsString)
        (zArray_isSome zString specIsString zString_isSome),
    ← zField_isSome v "representative_doc_id" zString specIsString
        zString_isSome]
  simp only [ClusterSchema]
  cases zField v "id" zString <;> simp
  cases zField v "name" zString <;> simp
  cases zField v "centroid" (zArray zNumber) <;> simp
  cases zField v "document_ids" (zArray zString) <;> simp
  cases zField v "representative_doc_id" zString <;> simp

theorem ClusterDataSchema_isSome (v : Json) :
    (ClusterDataSchema v).isSome = specClusterDataShape v := by
  simp only [specClusterDataShape,
    ← zField_isSome v "folders" (zArray ClusterSchema)
        (specIsArrayOf specClusterShape)
        (zArray_isSome ClusterSchema specClusterShape ClusterSchema_isSome),
    ← zField_isSome v "documents" (zArray DocumentSchema)
        (specIsArrayOf specDocumentShape)
        (zArray_isSome DocumentSchema specDocumentShape DocumentSchema_isSome),
    ← zField_isSome v "timestamp" zString specIsString zString_isSome]
  simp only [ClusterDataSchema]
  cases zField v "folders" (zArray ClusterSchema) <;> simp
  cases zField v "documents" (zArray DocumentSchema) <;> simp
  cases zField v "timestamp" zString <;> simp

theorem ClusterResponseSchema_eq (v : Json) :
    ClusterResponseSchema v = ClusterDataSchema v := rfl

theorem IngestResponseSchema_isSome (v : Json) :
    (IngestResponseSchema v).isSome = specIngestRespShape v := by
  simp only [specIngestRespShape,
    ← zField_isSome v "success" zBool specIsBool zBool_isSome,
    ← zField_isSome v "document_ids" (zArray zString)
        (specIsArrayOf specIsString)
        (zArray_isSome zString specIsString zString_isSome),
    ← zField_isSome v "count" zNumber specIsNumber zNumber_isSome,
    ← zField_isSome v "message" zString specIsString zString_isSome]
  simp only [IngestResponseSchema]
  cases zField v "success" zBool <;> simp
  cases zField v "document_ids" (zArray zString) <;> simp
  cases zField v "count" zNumber <;> simp
  cases zField v "message" zString <;> simp

theorem ReEmbedResponseSchema_isSome (v : Json) :
    (ReEmbedResponseSchema v).isSome = specReEmbedShape v := by
  have hcr : ∀ j, (ClusterResponseSchema j).isSome = specClusterDataShape j :=
    fun j => ClusterDataSchema_isSome j
  simp only [specReEmbedShape,
    ← zField_isSome v "success" zBool specIsBool zBool_isSome,
    ← zField_isSome v "new_cluster_id" zString specIsString zString_isSome,
    ← zField_isSome v "updated_clusters" ClusterResponseSchema
        specClusterDataShape hcr]
  simp only [ReEmbedResponseSchema]
  cases zField v "success" zBool <;> simp
  cases zField v "new_cluster_id" zString <;> simp
  cases zField v "updated_clusters" ClusterResponseSchema <;> simp

/-! ### The HTTP client request loop (api-client.ts lines 104-203) -/

/-- `APIError` of frontend/lib/types.ts. -/
structure APIError where
  detail : String
  status : Nat
deriving DecidableEq

/-- `APIResult` of frontend/lib/types.ts. -/
inductive APIResult (T : Type) where
  | success (data : T)
  | failure (error : APIError)

/-- Whether an `APIResult` is the success variant. -/
def APIResult.isSuccess : APIResult T → Bool
  | .success _ => true
  | .failure _ => false

/-- The outcome of one `fetch` attempt, as seen by `request`:
an HTTP response whose body is JSON (`some`) or unparseable (`none`),
an abort (timeout) error, or another thrown `Error` with a message. -/
inductive AttemptOutcome where
  | resp (status : Nat) (body : Option Json)
  | abortErr
  | netErr (msg : String)

/-- JavaScript truthiness of a JSON value. -/
def jsTruthy : Json → Bool
  | .null => false
  | .bool b => b
  | .num n => n != 0
  | .str s => s != ""
  | .arr _ => true
  | .obj _ => true

/-- JavaScript string coercion of a JSON value (coarse for arrays and
objects, whose exact rendering no claim depends on). -/
def jsToString : Json → String
  | .str s => s
  | .num n => toString n
  | .bool b => if b then "true" else "false"
  | .null => "null"
  | .arr _ => "array"
  | .obj _ => "object"

/-- `response.ok`: status in the 2xx range. -/
def respOk (status : Nat) : Bool := 200 ≤ status && status < 300

/-- The client error range matched at api-client.ts line 141. -/
def is4xx (status : Nat) : Bool := 400 ≤ status && status < 500

/-- The expression errorData.detail, else errorData.message, else the
literal Unknown error, for the parsed
error body of a non-ok response (api-client.ts line 136); when the body was
unparseable, the `.catch` default `HTTP status: statusText` is used
(statusText is not modelled). Only called for bodies on which JavaScript
property access does not throw. -/
def errorDataDetail (status : Nat) (body : Option Json) : String :=
  match body with
  | none => "HTTP " ++ toString status
  | some (.obj kvs) =>
    let d := getField kvs "detail"
    let m := getField kvs "message"
    if d.elim false jsTruthy then jsToString (d.getD .null)
    else if m.elim false jsTruthy then jsToString (m.getD .null)
    else "Unknown error"
  | some _ => "Unknown error"

/-- How one attempt of the `request` loop ends: terminal success, terminal
failure (returned at once), or a retryable failure. -/
inductive Disposition (T : Type) where
  | success (data : T)
  | hardFail (e : APIError)
  | softFail (e : APIError)

/-- Whether a disposition is retryable. -/
def Disposition.isSoft : Disposition T → Bool
  | .softFail _ => true
  | _ => false

/-- The `APIResult` the loop returns when it stops at this disposition. -/
def Disposition.toResult : Disposition T → APIResult T
  | .success d => .success d
  | .hardFail e => .failure e
  | .softFail e => .failure e

/-- One iteration body of `LatentFSClient.request` (api-client.ts 113-195):

* 2xx with a JSON body: `schema.parse`; success on parse, and a `ZodError`
  is returned immediately (`hardFail`) with a format error of status 0;
* 2xx whose body fails `response.json()`: the thrown `SyntaxError` reaches
  the generic `catch`, so it is retryable (`softFail`, status 0);
* non-2xx with body the JSON literal `null`: `response.json()` resolves to
  `null` and `errorData.detail` throws a TypeError inside the `try`, which
  the generic `catch` treats as a retryable error of status 0;
* other non-2xx: the error detail is extracted; 4xx is returned immediately
  (line 141-143), everything else is retryable;
* an abort (timeout) or other thrown error is retryable with status 0. -/
def disposition (schema : Json → Option T) : AttemptOutcome → Disposition T
  | .resp status body =>
    if respOk status then
      match body with
      | some j =>
        match schema j with
        | some d => .success d
        | none => .hardFail ⟨"Invalid response format", 0⟩
      | none => .softFail ⟨"Unexpected end of JSON input", 0⟩
    else
      match body with
      | some .null => .softFail ⟨"Cannot read properties of null", 0⟩
      | _ =>
        if is4xx status then .hardFail ⟨errorDataDetail status body, status⟩
        else .softFail ⟨errorDataDetail status body, status⟩
  | .abortErr => .softFail ⟨"Request timeout", 0⟩
  | .netErr msg => .softFail ⟨(if msg == "" then "Network error" else msg), 0⟩

/-- The trace of one call to `request`: its return value, the number of
HTTP attempts performed, and the sleeps performed between attempts. -/
structure ReqTrace (T : Type) where
  result : APIResult T
  attempts : Nat
  delays : List Nat

/-- The retry loop of `LatentFSClient.request`, with `mr` retries left and
`rd` the delay the next retry would sleep.  `f n` is the outcome of the
n-th remaining attempt.  Doubling `rd` at each level implements the
source expression `retryDelay * Math.pow(2, attempt)` without an attempt
counter. -/
def runReq (schema : Json → Option T) (rd : Nat) (f : Nat → AttemptOutcome) :
    Nat → ReqTrace T
  | 0 =>
    match disposition schema (f 0) with
    | .success d => ⟨.success d, 1, []⟩
    | .hardFail e => ⟨.failure e, 1, []⟩
    | .softFail e => ⟨.failure e, 1, []⟩
  | mr + 1 =>
    match disposition schema (f 0) with
    | .success d => ⟨.success d, 1, []⟩
    | .hardFail e => ⟨.failure e, 1, []⟩
    | .softFail _ =>
      let t := runReq schema (2 * rd) (fun i => f (i + 1)) mr
      ⟨t.result, t.attempts + 1, rd :: t.delays⟩

/-- `LatentFSClient.request` with `maxRetries = mr` and `retryDelay = rd`,
run against per-attempt fetch outcomes `f`. -/
def request (mr rd : Nat) (schema : Json → Option T)
    (f : Nat → AttemptOutcome) : ReqTrace T :=
  runReq schema rd f mr

theorem request_resp200 (schema : Json → Option T) (mr rd : Nat) (v : Json) :
    (request mr rd schema
      (fun _ => AttemptOutcome.resp 200 (some v))).result.isSuccess
      = (schema v).isSome := by
  have hd : disposition schema (AttemptOutcome.resp 200 (some v))
      = (match schema v with
         | some d => Disposition.success d
         | none => Disposition.hardFail ⟨"Invalid response format", 0⟩) := by
    simp [disposition, respOk]
  simp only [request]
  cases mr <;> simp only [runReq] <;> rw [hd] <;> cases schema v <;> rfl

theorem runReq_spec (schema : Json → Option T) :
    ∀ (mr rd : Nat) (f : Nat → AttemptOutcome),
    ∃ n, (runReq schema rd f mr).attempts = n + 1 ∧ n ≤ mr ∧
      (∀ i, i < n → (disposition schema (f i)).isSoft = true) ∧
      ((disposition schema (f n)).isSoft = true → n = mr) ∧
      (runReq schema rd f mr).delays
        = (List.range n).map (fun i => rd * 2 ^ i) ∧
      (runReq schema rd f mr).result = (disposition schema (f n)).toResult := by
  intro mr
  induction mr with
  | zero =>
    intro rd f
    refine ⟨0, ?_, Nat.le_refl 0,
      fun i hi => absurd hi (Nat.not_lt_zero i), fun _ => rfl, ?_, ?_⟩
    · cases hd : disposition schema (f 0) <;> simp [runReq, hd]
    · cases hd : disposition schema (f 0) <;> simp [runReq, hd]
    · cases hd : disposition schema (f 0) <;>
        simp [runReq, hd, Disposition.toResult]
  | succ mr ih =>
    intro rd f
    cases hd : disposition schema (f 0) with
    | success d =>
      refine ⟨0, ?_, Nat.zero_le _,
        fun i hi => absurd hi (Nat.not_lt_zero i), ?_, ?_, ?_⟩
      · simp [runReq, hd]
      · simp [hd, Disposition.isSoft]
      · simp [runReq, hd]
      · simp [runReq, hd, Disposition.toResult]
    | hardFail e =>
      refine ⟨0, ?_, Nat.zero_le _,
        fun i hi => absurd hi (Nat.not_lt_zero i), ?_, ?_, ?_⟩
      · simp [runReq, hd]
      · simp [hd, Disposition.isSoft]
      · simp [runReq, hd]
      · simp [runReq, hd, Disposition.toResult]
    | softFail e =>
      obtain ⟨n, hA, hle, hsoft, hstop, hdel, hres⟩ :=
        ih (2 * rd) (fun i => f (i + 1))
      refine ⟨n + 1, ?_, by omega, ?_, ?_, ?_, ?_⟩
      · simp [runReq, hd, hA]
      · intro i hi
        cases i with
        | zero => simp [hd, Disposition.isSoft]
        | succ j => exact hsoft j (by omega)
      · intro hs
        have h2 := hstop hs
        omega
      · simp only [runReq, hd]
        rw [hdel, List.range_succ_eq_map, List.map_cons, List.map_map]
        congr 1
        · simp
        · have h2 : ((fun i => rd * 2 ^ i) ∘ Nat.succ)
              = fun i => 2 * rd * 2 ^ i := by
            funext i
            simp only [Function.comp, pow_succ]
            ring
          rw [h2]
      · simp only [runReq, hd]
        rw [hres]

/-- C9 (amended): the request loop is total, returning a schema-validated
success or a structured failure; it performs at most `maxRetries + 1`
attempts; every attempt before the last had a retryable disposition (so a
4xx with a non-null error body, and a Zod validation failure, end the loop
immediately), the loop only stops on a retryable disposition when its
retry budget is exhausted, the sleeps between attempts are exactly
`retryDelay * 2 ^ attempt`, and the returned value is determined by the
disposition of the final attempt. -/
theorem C9_request_retry_contract (schema : Json → Option T) (mr rd : Nat)
    (f : Nat → AttemptOutcome) :
    ∃ n, (request mr rd schema f).attempts = n + 1 ∧ n ≤ mr ∧
      (∀ i, i < n → (disposition schema (f i)).isSoft = true) ∧
      ((disposition schema (f n)).isSoft = true → n = mr) ∧
      (request mr rd schema f).delays
        = (List.range n).map (fun i => rd * 2 ^ i) ∧
      (request mr rd schema f).result = (disposition schema (f n)).toResult :=
  runReq_spec schema mr rd f

/-- Witness for C9: on a client with one retry whose fetch always throws a
network error, the theorem (applied with its inner bound discharged at
attempt 0) yields that the first attempt was classified retryable. -/
theorem C9_request_retry_contract_witness :
    (disposition (fun j : Json => some j)
      (AttemptOutcome.netErr "boom")).isSoft = true := by
  obtain ⟨n, hA, hle, hsoft, hstop, hdel, hres⟩ :=
    C9_request_retry_contract (fun j : Json => some j) 1 5
      (fun _ => AttemptOutcome.netErr "boom")
  have h2 : (request 1 5 (fun j : Json => some j)
      (fun _ => AttemptOutcome.netErr "boom")).attempts = 2 := rfl
  have hn : n = 1 := by omega
  subst hn
  exact hsoft 0 (by omega)

/-- C9 counterexample: a 404 whose JSON body is the literal `null` is
retried (two attempts, one backoff sleep of `retryDelay * 2 ^ 0`), because
`errorData.detail` throws on a null body inside the `try` and the generic
`catch` treats the TypeError as a retryable error; the claim states that
every response with status in 400..499 is returned as a failure
immediately with no further attempt. -/
theorem C9_counterexample_4xx_null_retried :
    (request 1 7 (fun j : Json => some j)
      (fun _ => AttemptOutcome.resp 404 (some Json.null))).attempts = 2 ∧
    (request 1 7 (fun j : Json => some j)
      (fun _ => AttemptOutcome.resp 404 (some Json.null))).delays = [7] :=
  ⟨rfl, rfl⟩

/-- C1: for every JSON body of an HTTP 200 response, `getClusters` (the
request loop run with `ClusterDataSchema`) returns a success exactly when
the body is an object with `folders` an array of Cluster-shaped objects,
`documents` an array of Document-shaped objects and a string `timestamp`,
extra keys ignored, as the spec describes the snapshot. -/
theorem C1_getClusters_accepts_iff_shape (v : Json) (mr rd : Nat) :
    (request mr rd ClusterDataSchema
      (fun _ => AttemptOutcome.resp 200 (some v))).result.isSuccess
      = specClusterDataShape v := by
  rw [request_resp200, ClusterDataSchema_isSome]

/-- C3: for every JSON body of an HTTP 200 response, `reEmbedDocument` (the
request loop run with `ReEmbedResponseSchema`) returns a success exactly
when the body matches `{success: boolean, new_cluster_id: string,
updated_clusters: {folders, documents, timestamp}}`; any body missing
`new_cluster_id` or `updated_clusters`, or ill-typed there, makes the
shape predicate false, hence the call returns a failure, never success. -/
theorem C3_reEmbed_success_iff_shape (b : Json) (mr rd : Nat) :
    (request mr rd ReEmbedResponseSchema
      (fun _ => AttemptOutcome.resp 200 (some b))).result.isSuccess
      = specReEmbedShape b := by
  rw [request_resp200, ReEmbedResponseSchema_isSome]

/-- C6 (amended): `ingestDocuments` accepts a 200 body exactly when it is an
object with `success` a boolean, `document_ids` an array of strings,
`count` a number and `message` a string; the schema requires `success` and
`message` in addition to the two fields named in the spec. -/
theorem C6_ingest_success_iff_schema_shape (b : Json) (mr rd : Nat) :
    (request mr rd IngestResponseSchema
      (fun _ => AttemptOutcome.resp 200 (some b))).result.isSuccess
      = specIngestRespShape b := by
  rw [request_resp200, IngestResponseSchema_isSome]

/-- A 200 body with exactly the two fields the spec names for the ingest
result. -/
def ingestClaimBody : Json :=
  .obj [("document_ids", .arr [.str "d1"]), ("count", .num 1)]

/-- C6 counterexample: a body of the exact shape the claim says is accepted
(`document_ids` an array of strings, `count` a number) is rejected by the
client, because `IngestResponseSchema` also requires `success` and
`message`. -/
theorem C6_counterexample_missing_fields :
    specIngestClaimShape ingestClaimBody = true ∧
    ((request 3 1000 IngestResponseSchema
      (fun _ => AttemptOutcome.resp 200 (some ingestClaimBody))).result).isSuccess
      = false :=
  ⟨rfl, rfl⟩

/-- Spec invariant 1: the cluster_id of every document is none or names a folder
of the same snapshot. -/
def refIntegrity (cd : ClusterData) : Bool :=
  cd.documents.all fun d =>
    match d.cluster_id with
    | none => true
    | some c => cd.folders.any fun f => f.id == c

/-- A snapshot value that validates although its only document names a
folder absent from the snapshot. -/
def danglingSnapshot : Json :=
  .obj [("folders", .arr []),
        ("documents", .arr [.obj [("id", .str "d1"), ("text", .str "t"),
          ("embedding", .arr []), ("cluster_id", .str "c-missing"),
          ("metadata", .obj []), ("created_at", .str "2026-01-01"),
          ("updated_at", .str "2026-01-01")]]),
        ("timestamp", .str "2026-01-01")]

/-- C2 counterexample: `ClusterDataSchema` accepts a snapshot whose only
document carries a `cluster_id` that matches no folder, so schema
acceptance does not imply the referential-integrity invariant the claim
states. -/
theorem C2_counterexample_dangling_accepted :
    ((ClusterDataSchema danglingSnapshot).map refIntegrity) = some false :=
  rfl

/-- C2 (amended): the client validation does not enforce referential
integrity: there are snapshots accepted by `ClusterDataSchema` in which a
document carries a `cluster_id` equal to the id of no folder; acceptance constrains
`cluster_id` only to be a string or null. -/
theorem C2_schema_accepts_dangling :
    ∃ j cd, ClusterDataSchema j = some cd ∧ refIntegrity cd = false :=
  ⟨danglingSnapshot,
   ⟨[], [⟨"d1", "t", [], some "c-missing", [], "2026-01-01", "2026-01-01"⟩],
    "2026-01-01"⟩, rfl, rfl⟩

/-! ### FolderItem.handleDrop (Sidebar, drop-zone guard) -/

/-- The outcome of `FolderItem.handleDrop`: whether `onDrop` was invoked,
and with which `documentId` payload field (absent fields are `none`). -/
inductive DropOutcome where
  | invoked (docId : Option Json)
  | skipped

/-- JavaScript strict equality of a possibly-absent payload field against
a string: true only for exactly that string value (null, undefined and
non-strings always differ). -/
def jsStrictEqStr (v : Option Json) (s : String) : Bool :=
  match v with
  | some (.str t) => t == s
  | _ => false

/-- `FolderItem.handleDrop` for the folder with id `folderId`, on a drop
whose dataTransfer payload parsed to `payload` (`none` when `JSON.parse`
threw; a parsed `null` throws on destructuring and is likewise caught).
`onDrop` is invoked with the payloads documentId field exactly when the
`sourceFolderId !== folder.id` guard passes; destructuring a non-object
yields undefined fields, which always differ from the folder id. -/
def handleDrop (folderId : String) (payload : Option Json) : DropOutcome :=
  match payload with
  | none => .skipped
  | some .null => .skipped
  | some (.obj kvs) =>
    if jsStrictEqStr (getField kvs "sourceFolderId") folderId then .skipped
    else .invoked (getField kvs "documentId")
  | some _ => .invoked none

/-- C5: dropping a document onto its own folder is a no-op at the
interface: when the payload parses to an object whose sourceFolderId
equals the target folders id, handleDrop does not invoke onDrop, so no
re-embed request is issued and the cluster state is left unchanged;
conversely onDrop is invoked only when the sourceFolderId field differs
from the folders id. -/
theorem C5_drop_own_folder_noop (fid : String) (kvs : List (String × Json)) :
    (getField kvs "sourceFolderId" = some (.str fid) →
      handleDrop fid (some (.obj kvs)) = .skipped) ∧
    (∀ d, handleDrop fid (some (.obj kvs)) = .invoked d →
      getField kvs "sourceFolderId" ≠ some (.str fid)) := by
  constructor
  · intro h
    simp [handleDrop, h, jsStrictEqStr]
  · intro d h hc
    simp [handleDrop, hc, jsStrictEqStr] at h

/-- Witness for C5: a concrete drop of document d1 from folder f1 onto
folder f1 is skipped. -/
theorem C5_drop_own_folder_noop_witness :
    handleDrop "f1" (some (.obj [("documentId", .str "d1"),
      ("sourceFolderId", .str "f1")])) = DropOutcome.skipped :=
  (C5_drop_own_folder_noop "f1"
    [("documentId", .str "d1"), ("sourceFolderId", .str "f1")]).1 rfl

/-! ### FileSystemView.handleFolderDrop, concurrency guard -/

/-- The concurrency-relevant state of `FileSystemView`: the isReEmbedding
flag, the number of re-embed requests outstanding, and counters of
requests issued and of drops rejected by the guard. -/
structure ViewState where
  isReEmbedding : Bool
  inFlight : Nat
  issued : Nat
  rejected : Nat

/-- Events at the views await boundary: a folder drop entering
`handleFolderDrop`, and the settling (success, failure or throw) of an
outstanding re-embed request, whose finally-block clears the flag. -/
inductive ViewEvent where
  | drop
  | complete

/-- One step of `FileSystemView` (part_000 lines 206-291): a drop while a
re-embed is in flight is rejected (showError, early return, nothing
queued); otherwise the flag is set and a request is issued; a completion
decrements the in-flight count and the finally-block resets the flag. -/
def viewStep (s : ViewState) : ViewEvent → ViewState
  | .drop =>
    if s.isReEmbedding then { s with rejected := s.rejected + 1 }
    else { s with isReEmbedding := true, inFlight := s.inFlight + 1,
                  issued := s.issued + 1 }
  | .complete =>
    match s.inFlight with
    | 0 => s
    | n + 1 => { s with inFlight := n, isReEmbedding := false }

/-- The initial state of the view. -/
def viewInit : ViewState := ⟨false, 0, 0, 0⟩

/-- The view state after a sequence of events. -/
def runView (tr : List ViewEvent) : ViewState :=
  tr.foldl viewStep viewInit

/-- The single-flight invariant of the view. -/
def viewInv (s : ViewState) : Prop :=
  s.inFlight ≤ 1 ∧ (s.isReEmbedding = true ↔ s.inFlight = 1)

theorem viewStep_inv (s : ViewState) (h : viewInv s) (e : ViewEvent) :
    viewInv (viewStep s e) := by
  obtain ⟨h1, h2⟩ := h
  cases e with
  | drop =>
    by_cases hb : s.isReEmbedding = true
    · simpa [viewStep, viewInv, hb] using ⟨h1, h2.mp hb⟩
    · have hb0 : s.isReEmbedding = false := by
        cases hbb : s.isReEmbedding
        · rfl
        · exact absurd hbb hb
      have hne : s.inFlight ≠ 1 := fun hh => by
        rw [h2.mpr hh] at hb0
        exact Bool.noConfusion hb0
      have hz : s.inFlight = 0 := by omega
      simp [viewStep, viewInv, hb0, hz]
  | complete =>
    cases hf : s.inFlight with
    | zero =>
      have h2s : s.isReEmbedding = true ↔ s.inFlight = 1 := h2
      simp only [viewStep, hf]
      exact ⟨h1, h2s⟩
    | succ n =>
      have hn : n = 0 := by omega
      subst hn
      simp [viewStep, viewInv, hf]

theorem runView_inv (tr : List ViewEvent) : viewInv (runView tr) := by
  suffices h : ∀ s, viewInv s → viewInv (tr.foldl viewStep s) from
    h viewInit ⟨Nat.zero_le 1, by simp [viewInit]⟩
  induction tr with
  | nil => intro s hs; exact hs
  | cons e tr ih => intro s hs; exact ih (viewStep s e) (viewStep_inv s hs e)

/-- C4 (amended): the view never has two re-embed requests in flight — in
every reachable state at most one request is outstanding, with the
isReEmbedding flag set exactly while one is — and a drop arriving while a
request is in flight is rejected (an error toast, no request issued and
nothing queued), while a drop in the idle state issues exactly one
request. -/
theorem C4_view_single_flight (tr : List ViewEvent) :
    (runView tr).inFlight ≤ 1 ∧
    ((runView tr).isReEmbedding = true ↔ (runView tr).inFlight = 1) ∧
    (runView (tr ++ [ViewEvent.drop])).issued
      = (if (runView tr).isReEmbedding then (runView tr).issued
         else (runView tr).issued + 1) ∧
    (runView (tr ++ [ViewEvent.drop])).rejected
      = (if (runView tr).isReEmbedding then (runView tr).rejected + 1
         else (runView tr).rejected) := by
  obtain ⟨h1, h2⟩ := runView_inv tr
  have happ : runView (tr ++ [ViewEvent.drop])
      = viewStep (runView tr) ViewEvent.drop := by
    simp [runView, List.foldl_append]
  refine ⟨h1, h2, ?_, ?_⟩
  · rw [happ]
    by_cases hb : (runView tr).isReEmbedding = true <;> simp [viewStep, hb]
  · rw [happ]
    by_cases hb : (runView tr).isReEmbedding = true <;> simp [viewStep, hb]

/-- C4 counterexample: on the trace drop, drop, complete — a second drop
arriving while the first request is in flight — only one request is ever
issued and one drop is rejected; even after the first write completes the
second drop has not been queued or replayed, contradicting the claim that
concurrent write requests block or queue until the first completes. -/
theorem C4_counterexample_second_drop_rejected :
    (runView [ViewEvent.drop, ViewEvent.drop, ViewEvent.complete]).issued
      = 1 ∧
    (runView [ViewEvent.drop, ViewEvent.drop, ViewEvent.complete]).rejected
      = 1 ∧
    (runView [ViewEvent.drop, ViewEvent.drop, ViewEvent.complete]).inFlight
      = 0 :=
  ⟨rfl, rfl, rfl⟩

/-! ### useClusterData (part_001 lines 215-290) -/

/-- `UseClusterDataState` of useClusterData (data, loading, error). -/
structure UseClusterDataState where
  data : Option ClusterData
  loading : Bool
  error : Option APIError

/-- `setData` of the hook. -/
def setData (d : Option ClusterData) (s : UseClusterDataState) :
    UseClusterDataState :=
  { s with data := d }

/-- `setLoading` of the hook. -/
def setLoading (b : Bool) (s : UseClusterDataState) : UseClusterDataState :=
  { s with loading := b }

/-- `setError` of the hook. -/
def setError (e : Option APIError) (s : UseClusterDataState) :
    UseClusterDataState :=
  { s with error := e }

/-- How one call of `apiClient.getClusters` inside fetchData can end: it
resolved with success, resolved with failure, or threw (an Error with a
message, or — `none` — a non-Error value). -/
inductive FetchOutcome where
  | ok (d : ClusterData)
  | fail (e : APIError)
  | thrown (msg : Option String)

/-- `useClusterData.fetchData` as a state transformer, mirroring the
statement order of the source: set loading, clear the error, then either
publish the new data and clear the error again (success), record the
result error (failure), or record a synthesised APIError of status 0
(throw); the finally-block clears loading. -/
def fetchData (s : UseClusterDataState) (r : FetchOutcome) :
    UseClusterDataState :=
  let s1 := setError none (setLoading true s)
  let s2 :=
    match r with
    | .ok d => setError none (setData (some d) s1)
    | .fail e => setError (some e) s1
    | .thrown m => setError (some ⟨m.getD "Unknown error occurred", 0⟩) s1
  setLoading false s2

/-- C7: a failed snapshot fetch (an unsuccessful result or a throw) leaves
the hooks data field unchanged — the previously published snapshot stays
visible — and only the error and loading fields change; data is replaced
only on a successful fetch. -/
theorem C7_fetch_failure_keeps_data (s : UseClusterDataState) :
    (∀ e, fetchData s (.fail e) = ⟨s.data, false, some e⟩) ∧
    (∀ m, fetchData s (.thrown m)
      = ⟨s.data, false, some ⟨m.getD "Unknown error occurred", 0⟩⟩) ∧
    (∀ d, fetchData s (.ok d) = ⟨some d, false, none⟩) :=
  ⟨fun _ => rfl, fun _ => rfl, fun _ => rfl⟩

/-! ### Toasts (useToast.ts, Toast.tsx) and the re-embed error branches -/

/-- `ToastType` of Toast.tsx. -/
inductive ToastType where
  | error
  | success
  | info

/-- `Toast` of Toast.tsx.  The onRetry closure is modelled by the
handleFolderDrop argument pair it captures: (targetFolderId, documentId). -/
structure Toast where
  id : String
  type : ToastType
  message : String
  canRetry : Option Bool
  onRetry : Option (String × String)
  duration : Option Nat

/-- The options bag of `useToast.showToast`. -/
structure ShowToastOptions where
  canRetry : Option Bool
  onRetry : Option (String × String)
  duration : Option Nat

/-- `useToast.showToast` (useToast.ts lines 20-44); the generated toast id
(a Date.now and random string in the source) is a parameter. -/
def showToast (id : String) (t : ToastType) (message : String)
    (options : ShowToastOptions) : Toast :=
  ⟨id, t, message, options.canRetry, options.onRetry, options.duration⟩

/-- `useToast.showError` (useToast.ts lines 63-71): duration 0 — no
auto-dismiss — when a retry is available, 7000 otherwise. -/
def showError (id : String) (message : String) (canRetry : Option Bool)
    (onRetry : Option (String × String)) : Toast :=
  showToast id .error message
    ⟨canRetry, onRetry, some (if canRetry.getD false then 0 else 7000)⟩

/-- Whether `ToastItem` ever auto-dismisses this toast: its effect arms a
timer only when `duration` (default 5000) is positive (Toast.tsx 31-42). -/
def toastAutoDismisses (t : Toast) : Bool :=
  0 < t.duration.getD 5000

/-- How the `apiClient.reEmbedDocument` call inside handleFolderDrop can
end: resolved with an APIResult, or thrown (an Error with a message, or —
`none` — a non-Error value). -/
inductive ReEmbedCallOutcome where
  | resolved (r : APIResult ReEmbedResponse)
  | thrown (msg : Option String)

/-- The toast `FileSystemView.handleFolderDrop` creates for each outcome of
the re-embed call (part_000 lines 223-287): a success toast on success; on
a failure result, an error toast with the results detail (or the fallback
when the detail is the empty string, via JavaScript `||`) and a retry that
re-invokes handleFolderDrop with the same targetFolderId and documentId;
on a throw, the same with the thrown message (or the generic message for
non-Error values). -/
def handleFolderDropToast (id targetFolderId documentId : String) :
    ReEmbedCallOutcome → Toast
  | .resolved (.success _) =>
    showToast id .success "Document moved successfully!" ⟨none, none, some 4000⟩
  | .resolved (.failure e) =>
    showError id (if e.detail == "" then "Failed to move document" else e.detail)
      (some true) (some (targetFolderId, documentId))
  | .thrown m =>
    showError id (m.getD "An unexpected error occurred")
      (some true) (some (targetFolderId, documentId))

/-- C8: a failed re-embed (unsuccessful result or throw) shows the user a
structured error toast carrying the failure detail (or the thrown
message), with a retry action that re-invokes handleFolderDrop with the
same targetFolderId and documentId; because showError is called with
canRetry, the toast has duration 0 and never auto-dismisses. -/
theorem C8_failed_reembed_toast (id target doc : String) :
    (∀ e : APIError, e.detail ≠ "" →
      handleFolderDropToast id target doc (.resolved (.failure e))
        = ⟨id, .error, e.detail, some true, some (target, doc), some 0⟩ ∧
      toastAutoDismisses
        (handleFolderDropToast id target doc (.resolved (.failure e)))
        = false) ∧
    (∀ m : String,
      handleFolderDropToast id target doc (.thrown (some m))
        = ⟨id, .error, m, some true, some (target, doc), some 0⟩ ∧
      toastAutoDismisses
        (handleFolderDropToast id target doc (.thrown (some m))) = false) := by
  constructor
  · intro e he
    have hd : (e.detail == "") = false := by
      rw [beq_eq_false_iff_ne]
      exact he
    constructor
    · simp [handleFolderDropToast, showError, showToast, hd]
    · simp [handleFolderDropToast, showError, showToast, hd, toastAutoDismisses]
  · intro m
    exact ⟨rfl, rfl⟩

/-- Witness for C8: a concrete failed result with detail "backend size cap"
yields the non-dismissing retry toast with the same drop arguments. -/
theorem C8_failed_reembed_toast_witness :
    handleFolderDropToast "t1" "folder-a" "doc-b"
      (.resolved (.failure ⟨"backend size cap", 500⟩))
      = ⟨"t1", .error, "backend size cap", some true,
         some ("folder-a", "doc-b"), some 0⟩ :=
  ((C8_failed_reembed_toast "t1" "folder-a" "doc-b").1
    ⟨"backend size cap", 500⟩ (by decide)).1

/-! ### GridView (GridView.tsx lines 17-52) -/

/-- The two EmptyState types GridView selects between. -/
inductive EmptyStateType where
  | noDocuments
  | folderEmpty

/-- What one render of GridView displays. -/
structure GridViewRender where
  header : String
  countShown : Nat
  showsEmptyState : Bool
  emptyState : Option EmptyStateType
  shown : List Document

/-- `GridView` as a pure render function.  The source branches on
`selectedFolderId ?` — JavaScript truthiness — so both null and the empty
string select the unfiltered all-documents branch. -/
def gridView (documents : List Document) (selectedFolderId : Option String) :
    GridViewRender :=
  let truthy :=
    match selectedFolderId with
    | some s => s != ""
    | none => false
  let filteredDocuments :=
    if truthy then documents.filter (fun d => d.cluster_id == selectedFolderId)
    else documents
  { header := if truthy then "Folder Contents" else "All Documents"
    countShown := filteredDocuments.length
    showsEmptyState := filteredDocuments.length == 0
    emptyState :=
      if filteredDocuments.length == 0 then
        some (if truthy then .folderEmpty else .noDocuments)
      else none
    shown := if filteredDocuments.length == 0 then [] else filteredDocuments }

theorem if_length_zero {α : Type} (l : List α) :
    (if l.length == 0 then ([] : List α) else l) = l := by
  cases l <;> simp

/-- C10 (amended): GridView renders exactly the documents whose cluster_id
equals selectedFolderId when selectedFolderId is non-null and non-empty;
when it is null — or the empty string, since the component tests
truthiness rather than nullity — it renders all documents; the displayed
count equals the length of the rendered list, and the empty-state
placeholder is shown exactly when that list is empty. -/
theorem C10_gridView_filter (documents : List Document)
    (sel : Option String) :
    ((sel = none ∨ sel = some "") →
      (gridView documents sel).shown = documents) ∧
    (∀ s, sel = some s → s ≠ "" →
      (gridView documents sel).shown
        = documents.filter (fun d => d.cluster_id == some s)) ∧
    (gridView documents sel).countShown
      = (gridView documents sel).shown.length ∧
    ((gridView documents sel).showsEmptyState = true ↔
      (gridView documents sel).shown = []) := by
  rcases sel with _ | s
  · refine ⟨fun _ => ?_, fun s hs => by simp at hs, ?_, ?_⟩
    · simp only [gridView]
      exact if_length_zero documents
    · simp only [gridView, if_length_zero]
    · simp only [gridView, if_length_zero]
      simp [List.length_eq_zero]
  · by_cases hs : s = ""
    · subst hs
      refine ⟨fun _ => ?_, fun t ht hne => ?_, ?_, ?_⟩
      · simp only [gridView]
        exact if_length_zero documents
      · cases ht
        exact absurd rfl hne
      · simp only [gridView, if_length_zero]
      · simp only [gridView, if_length_zero]
        simp [List.length_eq_zero]
    · have hbne : (s != "") = true := by simp [hs]
      refine ⟨fun hcontra => ?_, fun t ht hne => ?_, ?_, ?_⟩
      · rcases hcontra with h | h
        · exact absurd h (by simp)
        · rw [Option.some_inj] at h
          exact absurd h hs
      · cases ht
        simp only [gridView, hbne, if_true]
        exact if_length_zero _
      · simp only [gridView, hbne, if_true, if_length_zero]
      · simp only [gridView, hbne, if_true, if_length_zero]
        simp [List.length_eq_zero]

/-- A sample document in folder-1 for concrete evaluations. -/
def sampleDoc : Document :=
  ⟨"d1", "hello", [], some "folder-1", [], "2026-01-01", "2026-01-02"⟩

/-- Witness for C10: with a non-empty selection the rendered list is the
cluster_id filter of the documents. -/
theorem C10_gridView_filter_witness :
    (gridView [sampleDoc] (some "folder-1")).shown
      = [sampleDoc].filter (fun d => d.cluster_id == some "folder-1") :=
  (C10_gridView_filter [sampleDoc] (some "folder-1")).2.1 "folder-1" rfl
    (by decide)

/-- C10 counterexample: with one document in cluster folder-1 and
selectedFolderId the empty string — non-null — GridView shows the document
and displays count 1, although filtering by cluster_id equal to the empty
string would yield the empty list; the component branches on truthiness,
not on nullity. -/
theorem C10_counterexample_empty_string_selection :
    (gridView [sampleDoc] (some "")).countShown = 1 ∧
    ([sampleDoc].filter (fun d => d.cluster_id == some "")).length = 0 :=
  ⟨rfl, rfl⟩
